import Mathlib

/-!
Verification of the find/replace engine of the codimension IDE
(`src/ui/findreplacewidget.py`), via a shallow embedding in Lean 4.

The embedding models:
 - `SearchAttr` — per-editor search attributes (class `SearchAttr`);
 - `SearchSupport` — the registry of per-editor attributes, a Python dict
   keyed by the editor uuid, modelled as an association list;
 - `_addToHistory` — the bounded, de-duplicated history update;
 - the incremental search (`_performSearch`), directional navigation
   (`__findNextPrev` / `__searchFrom` / `_advanceMatchIndicator`),
   highlight isolation (`_resetHighlightOtherEditors`), and the replace
   operations (`__onReplace`, `__onReplaceAll`).

The external text-editing component (QScintilla wrapper) is out of the
repository; it is modelled by `EditorView` (an abstract view: cursor,
scroll, pure query functions, and a log of painting/selection operations)
for navigation, and by `RepEditor` (a concrete single-line text buffer
with target search and undo grouping) for the replace operations, both
following the interface the source calls into.
-/

namespace FindReplace

/-- Per-editor search attributes (class `SearchAttr` in the source):
`line`/`pos` is the remembered anchor cursor position, `firstLine` the
remembered scroll position, `matchSpan` the last match as
(line, pos, length) with `(-1, -1, -1)` meaning "no current match".
(`matchSpan` is called `match` in the source; `match` is a Lean keyword.) -/
structure SearchAttr where
  line : Int := -1
  pos : Int := -1
  firstLine : Int := -1
  matchSpan : Int × Int × Int := (-1, -1, -1)
deriving Repr, DecidableEq

/-- The registry of per-editor search attributes
(`SearchSupport.editorSearchAttributes`, a dict keyed by editor uuid). -/
abbrev SearchSupport := List (String × SearchAttr)

/-- Dictionary lookup `editorSearchAttributes[uuid]` (as an `Option`;
`none` corresponds to a Python `KeyError`). -/
def SearchSupport.get (s : SearchSupport) (uuid : String) : Option SearchAttr :=
  match s with
  | [] => none
  | (k, a) :: rest => if k = uuid then some a else SearchSupport.get rest uuid

/-- `SearchSupport.hasEditor`: `uuid in editorSearchAttributes`. -/
def SearchSupport.hasEditor (s : SearchSupport) (uuid : String) : Bool :=
  (s.get uuid).isSome

/-- `SearchSupport.add`: dictionary store `editorSearchAttributes[uuid] = attr`
(replaces in place if the key exists, appends otherwise). -/
def SearchSupport.add (s : SearchSupport) (uuid : String) (attr : SearchAttr) : SearchSupport :=
  match s with
  | [] => [(uuid, attr)]
  | (k, a) :: rest =>
      if k = uuid then (k, attr) :: rest else (k, a) :: SearchSupport.add rest uuid attr

/-- `SearchSupport.delete`: removes the record if present, no-op otherwise. -/
def SearchSupport.delete (s : SearchSupport) (uuid : String) : SearchSupport :=
  s.filter (fun e => e.1 ≠ uuid)

/-- `SearchSupport.clearStartPositions`: resets the anchor of every record. -/
def SearchSupport.clearStartPositions (s : SearchSupport) : SearchSupport :=
  s.map (fun e => (e.1, { e.2 with line := -1, pos := -1 }))

theorem SearchSupport.get_add_self (s : SearchSupport) (uuid : String) (attr : SearchAttr) :
    (s.add uuid attr).get uuid = some attr := by
  induction s with
  | nil => simp [SearchSupport.add, SearchSupport.get]
  | cons hd tl ih =>
      by_cases h : hd.1 = uuid <;>
        simp [SearchSupport.add, SearchSupport.get, h, ih]

theorem SearchSupport.get_add_ne (s : SearchSupport) (uuid u : String) (attr : SearchAttr)
    (h : u ≠ uuid) : (s.add uuid attr).get u = s.get u := by
  induction s with
  | nil => simp [SearchSupport.add, SearchSupport.get, h, Ne.symm h]
  | cons hd tl ih =>
      by_cases hk : hd.1 = uuid
      · subst hk
        simp [SearchSupport.add, SearchSupport.get, h, Ne.symm h]
      · by_cases hu : hd.1 = u <;>
          simp [SearchSupport.add, SearchSupport.get, h, hk, hu, ih]

/-! ## History (`FindReplaceBase._addToHistory`)

The Python method mutates the shared history list (`remove` / `insert`)
but then *rebinds the local name* with `history = history[:self.maxHistory]`,
so the truncation affects only the combo-box repopulation, never the shared
list the caller keeps and persists.  The embedding returns
`(changes, caller-visible history, combo items)` to expose exactly that. -/

/-- `FindReplaceBase.maxHistory`. -/
def maxHistory : Nat := 32

/-- `FindReplaceBase._addToHistory(combo, history, text)`.
Result: `(changes, history', comboItems)` where `history'` is the state of
the caller's shared list after the call (mutations only: de-dup move-to-front
or front insertion) and `comboItems` is what the combo box is repopulated
with (the truncated local rebinding). -/
def addToHistory (history : List String) (text : String) : Bool × List String × List String :=
  let step : Bool × List String :=
    if text ∈ history then
      if history.head? = some text then (false, history)
      else (true, text :: history.erase text)
    else (true, text :: history)
  if step.2.length > maxHistory then (true, step.2, step.2.take maxHistory)
  else (step.1, step.2, step.2)

/-- A full history of 32 distinct strings, for concrete evaluation. -/
def base32 : List String :=
  ["a", "b", "c", "d", "e", "f", "g", "h", "i", "j", "k", "l", "m",
   "n", "o", "p", "q", "r", "s", "t", "u", "v", "w", "x", "y", "z",
   "A", "B", "C", "D", "E", "F"]

/-- C2: the claim says the caller-visible history list never exceeds 32
entries.  In the code the truncation `history = history[:maxHistory]`
rebinds a local, so after inserting a 33rd distinct string the shared
list the caller keeps (and persists) has 33 entries; only the combo-box
items are truncated to 32. -/
theorem addToHistory_overflow_bug :
    ((addToHistory base32 "0").2.1).length = 33
      ∧ ((addToHistory base32 "0").2.2).length = 32 := by
  decide

/-- C9 counterexample: adding the same string twice in a row is claimed to
report no change the second time.  Over a history that has overflowed to 33
entries (reachable, see the C2 bug), the second identical add leaves the
list unchanged yet still reports `changes = true` (the length check fires). -/
theorem addToHistory_second_add_reports_change :
    ((addToHistory ((addToHistory base32 "0").2.1) "0").1 = true)
      ∧ ((addToHistory ((addToHistory base32 "0").2.1) "0").2.1
            = (addToHistory base32 "0").2.1) := by
  decide

/-- The caller-visible history produced by `addToHistory` is exactly the
mutation step (move-to-front or front insertion); the truncation only
affects the combo items. -/
theorem addToHistory_caller_list (h : List String) (t : String) :
    (addToHistory h t).2.1 =
      (if t ∈ h then
        (if h.head? = some t then h else t :: h.erase t)
       else t :: h) := by
  by_cases hmem : t ∈ h <;> by_cases hhd : h.head? = some t <;>
    simp [addToHistory, hmem, hhd] <;> split <;> simp

/-- C9 (amended): for a duplicate-free history, `_addToHistory` keeps the
added string unique and at the front, adding the same string twice in a row
leaves the list unchanged the second time, and — provided the history is
within its 32-entry capacity — re-adding the current front string reports
no change and leaves the list untouched. -/
theorem addToHistory_dedup (h : List String) (t : String) (hnd : h.Nodup) :
    ((addToHistory h t).2.1.head? = some t)
      ∧ (addToHistory h t).2.1.Nodup
      ∧ ((addToHistory ((addToHistory h t).2.1) t).2.1 = (addToHistory h t).2.1)
      ∧ (h.head? = some t → h.length ≤ maxHistory →
           (addToHistory h t).1 = false ∧ (addToHistory h t).2.1 = h) := by
  have hlist := addToHistory_caller_list h t
  have hhead : (addToHistory h t).2.1.head? = some t := by
    rw [hlist]
    by_cases hmem : t ∈ h
    · by_cases hhd : h.head? = some t <;> simp [hmem, hhd]
    · simp [hmem]
  refine ⟨hhead, ?_, ?_, ?_⟩
  · rw [hlist]
    by_cases hmem : t ∈ h
    · by_cases hhd : h.head? = some t
      · simp [hmem, hhd, hnd]
      · simp only [hmem, hhd, if_true, if_false]
        exact List.Nodup.cons
          (fun hc => by
            rcases (List.Nodup.mem_erase_iff hnd).1 hc with ⟨hne, _⟩
            exact hne rfl)
          (List.Nodup.erase t hnd)
    · simp [hmem, hnd]
  · obtain ⟨tl, htl⟩ : ∃ tl, (addToHistory h t).2.1 = t :: tl := by
      cases hres : (addToHistory h t).2.1 with
      | nil => rw [hres] at hhead; simp at hhead
      | cons x xs =>
          rw [hres] at hhead
          simp at hhead
          exact ⟨xs, by rw [hhead]⟩
    rw [htl, addToHistory_caller_list]
    have hmem2 : t ∈ t :: tl := List.mem_cons_self t tl
    simp [hmem2]
  · intro hhd hlen
    have hmem : t ∈ h := by
      cases h with
      | nil => simp at hhd
      | cons x xs =>
          simp at hhd
          rw [hhd]
          exact List.mem_cons_self t xs
    have hnb : ¬ (h.length > maxHistory) := by omega
    simp [addToHistory, hmem, hhd, hnb]

/-- Witness for the amended C9 on a concrete two-entry history. -/
theorem addToHistory_dedup_witness :
    ((addToHistory ["x", "y"] "y").2.1.head? = some "y")
      ∧ (addToHistory ["x", "y"] "y").2.1.Nodup
      ∧ ((addToHistory ((addToHistory ["x", "y"] "y").2.1) "y").2.1
          = (addToHistory ["x", "y"] "y").2.1)
      ∧ ((["x", "y"] : List String).head? = some "y" →
          (["x", "y"] : List String).length ≤ maxHistory →
          (addToHistory ["x", "y"] "y").1 = false
            ∧ (addToHistory ["x", "y"] "y").2.1 = ["x", "y"]) :=
  addToHistory_dedup ["x", "y"] "y" (by decide)

/-! ## The external text component, navigation side

The text-editing widget is an external collaborator (out of this
repository); `EditorView` models the interface the navigation code calls:
the cursor and scroll state, the pure query functions
(`positionFromLineIndex`, `lineIndexFromPosition`, `stringAt` — modelled by
the character count `stringAtLen` of the returned string — `getTargets`,
`highlightMatch`), and a newest-first log `ops` of the painting, selection
and scrolling operations the widget is asked to perform. -/

/-- The two indicator styles of the editor. -/
inductive IndKind where
  | searchIndicator
  | matchIndicator
deriving Repr, DecidableEq

/-- One visual/selection operation requested from the editor widget. -/
inductive EdOp where
  | clearIndicatorRange (kind : IndKind) (pos len : Int)
  | setIndicatorRange (kind : IndKind) (pos len : Int)
  | clearAllIndicators (kind : IndKind)
  | clearSearchInd
  | highlight (text : String) (line col : Int)
      (isRegexp isCase isWord selFlag scrFlag : Bool)
  | select (endLine endPos startLine startPos : Int)
  | ensureLine (line : Int)
deriving Repr, DecidableEq

/-- Abstract view of one editor widget. -/
structure EditorView where
  cursor : Int × Int
  firstVisible : Int
  posFromLineIndex : Int → Int → Int
  lineIndexFromPos : Int → Int × Int
  stringAtLen : Int → Int → Int
  getTargets : String → Bool → Bool → Bool → Int → Int → Int → Int → List (Int × Int × Int)
  highlightMatchF : String → Bool → Bool → Bool → Int → Int → Int × Int × Int
  ops : List EdOp

/-- Appends an operation to the editor's log. -/
def EditorView.logOp (e : EditorView) (op : EdOp) : EditorView :=
  { e with ops := op :: e.ops }

/-- `editor.setSelection(eLine, ePos, sLine, sPos)`: selects from the end
back to the start, which leaves the cursor at the selection start. -/
def EditorView.setSelection (e : EditorView) (eL eP sL sP : Int) : EditorView :=
  { e with cursor := (sL, sP), ops := EdOp.select eL eP sL sP :: e.ops }

/-- `editor.ensureLineOnScreen(line)`. -/
def EditorView.ensureLineOnScreen (e : EditorView) (l : Int) : EditorView :=
  e.logOp (EdOp.ensureLine l)

/-- `editor.cursorPosition = line, pos`. -/
def EditorView.setCursorPosition (e : EditorView) (l p : Int) : EditorView :=
  { e with cursor := (l, p) }

/-- `editor.highlightMatch(text, line, col, regexp, case, word, sel, scr)`:
logs the request and returns the match the component reports
(`(-1, -1, -1)` when nothing matches). -/
def EditorView.highlightMatch (e : EditorView) (text : String) (line col : Int)
    (r c w sel scr : Bool) : EditorView × (Int × Int × Int) :=
  (e.logOp (EdOp.highlight text line col r c w sel scr),
   e.highlightMatchF text r c w line col)

/-- The widget-level state around `FindReplaceBase`: the search registry,
the open editors (`editorsManager.getWidgetByUUID`, `none` when the manager
cannot supply a widget), the active editor uuid, the widget flags and query
options, and logs of status-bar messages (newest first), status-bar clear
requests, and `incSearchDone` signal emissions (newest first). -/
structure NavState where
  registry : SearchSupport
  editors : String → Option EditorView
  uuid : String
  isTextEditor : Bool
  findBackward : Bool
  ftext : String
  isRegexp : Bool
  isCase : Bool
  isWord : Bool
  sbMessages : List String
  sbCleared : Nat
  signals : List Bool

/-- Replaces the stored view of one editor. -/
def NavState.updateEditor (st : NavState) (uuid : String) (e : EditorView) : NavState :=
  { st with editors := fun u => if u = uuid then some e else st.editors u }

/-- `showStatusBarMessage`. -/
def NavState.showSB (st : NavState) (msg : String) : NavState :=
  { st with sbMessages := msg :: st.sbMessages }

/-- `clearStatusBarMessage`. -/
def NavState.clearSB (st : NavState) : NavState :=
  { st with sbCleared := st.sbCleared + 1 }

/-- `incSearchDone.emit`. -/
def NavState.emitSignal (st : NavState) (b : Bool) : NavState :=
  { st with signals := b :: st.signals }

/-- `FindReplaceBase._advanceMatchIndicator(uuid, newLine, newPos, newLength)`:
returns immediately when the registry has no record for `uuid` or when the
editors manager supplies no widget; otherwise repaints the previous current
match as an ordinary search hit, memorises and paints the new match, selects
it end-to-start (cursor lands on the match start) and scrolls to it. -/
def advanceMatchIndicator (st : NavState) (uuid : String)
    (newLine newPos newLength : Int) : NavState :=
  match st.registry.get uuid with
  | none => st
  | some attrs =>
    match st.editors uuid with
    | none => st
    | some editor =>
      let m := attrs.matchSpan
      let editor :=
        if m ≠ (-1, -1, -1) then
          let tgtPos := editor.posFromLineIndex m.1 m.2.1
          (editor.logOp (EdOp.clearIndicatorRange IndKind.matchIndicator tgtPos m.2.2)).logOp
            (EdOp.setIndicatorRange IndKind.searchIndicator tgtPos m.2.2)
        else editor
      let registry := st.registry.add uuid { attrs with matchSpan := (newLine, newPos, newLength) }
      let tgtPos := editor.posFromLineIndex newLine newPos
      let editor := (editor.logOp (EdOp.clearIndicatorRange IndKind.searchIndicator tgtPos newLength)).logOp
          (EdOp.setIndicatorRange IndKind.matchIndicator tgtPos newLength)
      let ep := editor.lineIndexFromPos (tgtPos + newLength)
      let editor := editor.setSelection ep.1 ep.2 newLine newPos
      let editor := editor.ensureLineOnScreen newLine
      { st with registry := registry,
                editors := fun u => if u = uuid then some editor else st.editors u }

/-- `FindReplaceBase.__searchFrom(startLine, startPos, clearSBMessage)`:
directional scan with wrap-around.  A `Python` lookup that would raise
(`KeyError` on the registry, attribute access on a missing editor) is an
`Except.error`; "nothing matched" is the ordinary value `.ok (false, _)`. -/
def searchFrom (st : NavState) (startLine startPos : Int) (clearSBMessage : Bool) :
    Except String (Bool × NavState) :=
  let text := st.ftext
  match st.editors st.uuid with
  | none => Except.error "no current editor"
  | some ed =>
    if ¬ st.findBackward then
      let ed1 := (ed.highlightMatch text startLine startPos st.isRegexp st.isCase st.isWord false false).1
      let st1 := st.updateEditor st.uuid ed1
      match ed1.getTargets text st.isRegexp st.isCase st.isWord startLine startPos (-1) (-1) with
      | [] =>
        let st2 := st1.showSB "Reached the end of the document. Searching from the beginning..."
        match ed1.getTargets text st.isRegexp st.isCase st.isWord 0 0 startLine startPos with
        | [] =>
          match st2.registry.get st2.uuid with
          | none => Except.error "KeyError: unregistered document"
          | some attrs =>
            Except.ok (false,
              { st2 with registry := st2.registry.add st2.uuid { attrs with matchSpan := (-1, -1, -1) } })
        | t :: _ => Except.ok (true, advanceMatchIndicator st2 st2.uuid t.1 t.2.1 t.2.2)
      | t :: _ =>
        let st2 := if clearSBMessage then st1.clearSB else st1
        Except.ok (true, advanceMatchIndicator st2 st2.uuid t.1 t.2.1 t.2.2)
    else
      let ed1 := (ed.highlightMatch text startLine startPos st.isRegexp st.isCase st.isWord false false).1
      let st1 := st.updateEditor st.uuid ed1
      match ed1.getTargets text st.isRegexp st.isCase st.isWord 0 0 startLine startPos with
      | [] =>
        let st2 := st1.showSB "Reached the beginning of the document. Searching from the end..."
        match ed1.getTargets text st.isRegexp st.isCase st.isWord startLine startPos (-1) (-1) with
        | [] =>
          match st2.registry.get st2.uuid with
          | none => Except.error "KeyError: unregistered document"
          | some attrs =>
            Except.ok (false,
              { st2 with registry := st2.registry.add st2.uuid { attrs with matchSpan := (-1, -1, -1) } })
        | t :: ts =>
          let last := (t :: ts).getLast (List.cons_ne_nil t ts)
          Except.ok (true, advanceMatchIndicator st2 st2.uuid last.1 last.2.1 last.2.2)
      | t :: ts =>
        let st2 := if clearSBMessage then st1.clearSB else st1
        let last := (t :: ts).getLast (List.cons_ne_nil t ts)
        Except.ok (true, advanceMatchIndicator st2 st2.uuid last.1 last.2.1 last.2.2)

/-- The scan-start phase of `FindReplaceBase.__findNextPrev`: starting from
the current cursor, either skip past the remembered match (cursor still on
it, forward search: advance by the character length `stringAt` reports for
the matched byte range), or re-anchor the record at the cursor with the
remembered match cleared (cursor moved away, or no record yet).  Returns the
scan start point and the registry to scan with. -/
def findStartPoint (st : NavState) (ed : EditorView) : (Int × Int) × SearchSupport :=
  let startLine := ed.cursor.1
  let startPos := ed.cursor.2
  match st.registry.get st.uuid with
  | some attrs =>
    if startLine = attrs.matchSpan.1 ∧ startPos = attrs.matchSpan.2.1 then
      if ¬ st.findBackward then
        let pos := ed.posFromLineIndex startLine startPos
        let adjustment := ed.stringAtLen pos attrs.matchSpan.2.2
        ((startLine, startPos + adjustment), st.registry)
      else ((startLine, startPos), st.registry)
    else
      ((startLine, startPos),
       st.registry.add st.uuid
         { line := startLine, pos := startPos, firstLine := ed.firstVisible,
           matchSpan := (-1, -1, -1) })
  | none =>
      ((startLine, startPos),
       st.registry.add st.uuid
         { line := startLine, pos := startPos, firstLine := ed.firstVisible,
           matchSpan := (-1, -1, -1) })

/-- `FindReplaceBase.__findNextPrev(clearSBMessage)`: no-op (returning
`false`) when the active tab is not a text editor; otherwise computes the
scan start point, scans, and on success re-anchors the record at the new
cursor position. -/
def findNextPrev (st : NavState) (clearSBMessage : Bool) : Except String (Bool × NavState) :=
  if ¬ st.isTextEditor then Except.ok (false, st)
  else
    match st.editors st.uuid with
    | none => Except.error "no current editor"
    | some ed =>
      let sp := findStartPoint st ed
      let st1 := { st with registry := sp.2 }
      match searchFrom st1 sp.1.1 sp.1.2 clearSBMessage with
      | Except.error e => Except.error e
      | Except.ok (false, st2) => Except.ok (false, st2)
      | Except.ok (true, st2) =>
        match st2.registry.get st2.uuid with
        | none => Except.error "KeyError: unregistered document"
        | some attrs =>
          match st2.editors st2.uuid with
          | none => Except.error "no current editor"
          | some ed2 =>
            let newAttrs := { attrs with line := ed2.cursor.1, pos := ed2.cursor.2,
                                         firstLine := ed2.firstVisible }
            Except.ok (true, { st2 with registry := st2.registry.add st2.uuid newAttrs })

/-- `FindReplaceBase._performSearch(fromScratch)`: the incremental search.
The UI-only lines (button enablement) are the only ones elided. -/
def performSearch (st : NavState) (fromScratch : Bool) : Except String NavState :=
  if ¬ st.isTextEditor then Except.ok st
  else
    let text := st.ftext
    let st := if fromScratch then { st with registry := st.registry.delete st.uuid } else st
    match st.editors st.uuid with
    | none => Except.error "no current editor"
    | some ed =>
      let registry :=
        match st.registry.get st.uuid with
        | some _ => st.registry
        | none => st.registry.add st.uuid
            { line := ed.cursor.1, pos := ed.cursor.2, firstLine := ed.firstVisible,
              matchSpan := (-1, -1, -1) }
      let st := { st with registry := registry }
      match st.registry.get st.uuid with
      | none => Except.error "KeyError: unregistered document"
      | some attrs =>
        if ¬ fromScratch then
          if text = "" then
            let ed := (ed.logOp (EdOp.clearAllIndicators IndKind.searchIndicator)).logOp
                (EdOp.clearAllIndicators IndKind.matchIndicator)
            let ed := ed.setCursorPosition attrs.line attrs.pos
            let ed := ed.ensureLineOnScreen attrs.firstLine
            let st := st.updateEditor st.uuid ed
            let st := { st with registry := st.registry.add st.uuid { attrs with matchSpan := (-1, -1, -1) } }
            Except.ok (st.emitSignal false)
          else
            let hm := ed.highlightMatch text attrs.line attrs.pos st.isRegexp st.isCase st.isWord true true
            let ed := hm.1
            let matchTarget := hm.2
            let st := { st with registry := st.registry.add st.uuid { attrs with matchSpan := matchTarget } }
            if matchTarget ≠ (-1, -1, -1) then
              let tgtPos := ed.posFromLineIndex matchTarget.1 matchTarget.2.1
              let ep := ed.lineIndexFromPos (tgtPos + matchTarget.2.2)
              let ed := ed.setSelection ep.1 ep.2 matchTarget.1 matchTarget.2.1
              let ed := ed.ensureLineOnScreen matchTarget.1
              let st := st.updateEditor st.uuid ed
              Except.ok (st.emitSignal true)
            else
              let ed := ed.setCursorPosition attrs.line attrs.pos
              let ed := ed.ensureLineOnScreen attrs.firstLine
              let st := st.updateEditor st.uuid ed
              Except.ok (st.emitSignal false)
        else
          if text = "" then Except.ok (st.emitSignal false)
          else
            let hm := ed.highlightMatch text attrs.line attrs.pos st.isRegexp st.isCase st.isWord true true
            let ed := hm.1
            let matchTarget := hm.2
            let st := { st with registry := st.registry.add st.uuid { attrs with matchSpan := matchTarget } }
            if matchTarget ≠ (-1, -1, -1) then
              let tgtPos := ed.posFromLineIndex matchTarget.1 matchTarget.2.1
              let ep := ed.lineIndexFromPos (tgtPos + matchTarget.2.2)
              let ed := ed.setSelection ep.1 ep.2 matchTarget.1 matchTarget.2.1
              let ed := ed.ensureLineOnScreen matchTarget.1
              let st := st.updateEditor st.uuid ed
              Except.ok (st.emitSignal true)
            else
              let st := st.updateEditor st.uuid ed
              Except.ok (st.emitSignal false)

/-- One step of the loop in `_resetHighlightOtherEditors`: skip the given
uuid, skip registry keys whose widget the editors manager cannot supply,
and ask every remaining editor to clear its search indicators. -/
def clearIndStep (uuid : String) (env : String → Option EditorView)
    (entry : String × SearchAttr) : String → Option EditorView :=
  if entry.1 = uuid then env
  else
    match env entry.1 with
    | none => env
    | some ed => fun u => if u = entry.1 then some (ed.logOp EdOp.clearSearchInd) else env u

/-- `FindReplaceBase._resetHighlightOtherEditors(uuid)`: remembers the
record for `uuid` (if any), asks every other open editor that has a record
to clear its search indicators, empties the registry, and re-inserts the
remembered record. -/
def resetHighlightOtherEditors (st : NavState) (uuid : String) : NavState :=
  let saved := st.registry.get uuid
  let editors := st.registry.foldl (clearIndStep uuid) st.editors
  let registry : SearchSupport :=
    match saved with
    | some attrs => SearchSupport.add [] uuid attrs
    | none => []
  { st with registry := registry, editors := editors }

/-! ## Concrete editors and states for evaluation -/

/-- An editor view with fixed answers for the pure query functions:
`getTargets` constantly answers `ts` and `highlightMatch` constantly
answers `hm`. -/
def mkEditor (ts : List (Int × Int × Int)) (hm : Int × Int × Int) : EditorView :=
  { cursor := (0, 0), firstVisible := 7,
    posFromLineIndex := fun _ p => p,
    lineIndexFromPos := fun p => (0, p),
    stringAtLen := fun _ l => l,
    getTargets := fun _ _ _ _ _ _ _ _ => ts,
    highlightMatchF := fun _ _ _ _ _ _ => hm,
    ops := [] }

/-- An editor where every query comes back empty. -/
def dummyEditor : EditorView := mkEditor [] (-1, -1, -1)

/-- A state with an empty registry and no open editors. -/
def emptyNavState : NavState :=
  { registry := [], editors := fun _ => none, uuid := "doc",
    isTextEditor := true, findBackward := false, ftext := "q",
    isRegexp := false, isCase := false, isWord := false,
    sbMessages := [], sbCleared := 0, signals := [] }

/-- A single-document state built around the given editor and attributes. -/
def oneDocState (ed : EditorView) (attrs : SearchAttr) : NavState :=
  { registry := [("doc", attrs)],
    editors := fun u => if u = "doc" then some ed else none,
    uuid := "doc", isTextEditor := true, findBackward := false, ftext := "q",
    isRegexp := false, isCase := false, isWord := false,
    sbMessages := [], sbCleared := 0, signals := [] }

/-! ## C10: the guard of `_advanceMatchIndicator` -/

/-- C10: `_advanceMatchIndicator` is a total no-op — registry and all
editor state unchanged, no fault — whenever the registry has no record for
the uuid or the editors manager cannot supply a widget for it; in
particular its registry lookup never fails. -/
theorem advanceMatchIndicator_guard (st : NavState) (uuid : String) (l p n : Int)
    (h : st.registry.get uuid = none ∨ st.editors uuid = none) :
    advanceMatchIndicator st uuid l p n = st := by
  rcases h with h | h
  · simp [advanceMatchIndicator, h]
  · cases hr : st.registry.get uuid <;> simp [advanceMatchIndicator, hr, h]

/-- Witness for C10 at a concrete unregistered document. -/
theorem advanceMatchIndicator_guard_witness :
    advanceMatchIndicator emptyNavState "doc" 0 0 1 = emptyNavState :=
  advanceMatchIndicator_guard emptyNavState "doc" 0 0 1 (Or.inl rfl)

/-! ## C5: forward wrap-around and not-found reporting in `__searchFrom` -/

/-- C5: on a forward search, when the scan from the start point to the end
of the document is empty, the "reached the end, searching from the
beginning" notice is emitted and the complementary range (document start to
the original scan start) is retried; when that is also empty, the remembered
match becomes `(-1, -1, -1)` and "not found" is reported as the ordinary
value `.ok (false, _)`, never as an error. -/
theorem searchFrom_forward_wrap_not_found (st : NavState) (sl sp : Int) (cl : Bool)
    (ed : EditorView) (attrs : SearchAttr)
    (hed : st.editors st.uuid = some ed)
    (hreg : st.registry.get st.uuid = some attrs)
    (hback : st.findBackward = false)
    (h1 : ed.getTargets st.ftext st.isRegexp st.isCase st.isWord sl sp (-1) (-1) = [])
    (h2 : ed.getTargets st.ftext st.isRegexp st.isCase st.isWord 0 0 sl sp = []) :
    ∃ st', searchFrom st sl sp cl = Except.ok (false, st')
      ∧ st'.registry.get st.uuid = some { attrs with matchSpan := (-1, -1, -1) }
      ∧ st'.sbMessages.head? =
          some "Reached the end of the document. Searching from the beginning..." := by
  unfold searchFrom
  rw [hed]
  simp only [EditorView.highlightMatch, EditorView.logOp, NavState.updateEditor,
    NavState.showSB, hback, Bool.false_eq_true, not_false_eq_true, ite_true]
  rw [h1, h2]
  simp only [hreg]
  refine ⟨_, rfl, ?_, ?_⟩
  · simp [SearchSupport.get_add_self]
  · simp

/-- Witness for C5 on a concrete one-document state with no matches. -/
theorem searchFrom_forward_wrap_not_found_witness :
    ∃ st', searchFrom (oneDocState dummyEditor { line := 0, pos := 0, firstLine := 0 }) 0 0 true
        = Except.ok (false, st')
      ∧ st'.registry.get "doc"
          = some { line := 0, pos := 0, firstLine := 0, matchSpan := (-1, -1, -1) }
      ∧ st'.sbMessages.head? =
          some "Reached the end of the document. Searching from the beginning..." :=
  searchFrom_forward_wrap_not_found
    (oneDocState dummyEditor { line := 0, pos := 0, firstLine := 0 }) 0 0 true
    dummyEditor { line := 0, pos := 0, firstLine := 0 } rfl rfl rfl rfl rfl

/-- When the record and the widget both exist, `_advanceMatchIndicator`
memorises exactly the given span as the new remembered match. -/
theorem advanceMatchIndicator_get (st : NavState) (uuid : String) (l p n : Int)
    (attrs : SearchAttr) (ed : EditorView)
    (hreg : st.registry.get uuid = some attrs)
    (hed : st.editors uuid = some ed) :
    (advanceMatchIndicator st uuid l p n).registry.get uuid
      = some { attrs with matchSpan := (l, p, n) } := by
  unfold advanceMatchIndicator
  rw [hreg, hed]
  by_cases hm : attrs.matchSpan ≠ (-1, -1, -1) <;>
    simp [hm, SearchSupport.get_add_self]

/-! ## C8: tie-break rule of `__searchFrom` -/

/-- C8: whenever a scanned range (the direct range or the wrap-around
retry range) yields a non-empty ordered target list, forward search adopts
the first element of that list as the new current match and backward
search adopts the last element — backward navigation is derived from the
forward-ordered locator, with no dedicated reverse scan. -/
theorem searchFrom_tiebreak (st : NavState) (sl sp : Int) (cl : Bool)
    (ed : EditorView) (attrs : SearchAttr)
    (hed : st.editors st.uuid = some ed)
    (hreg : st.registry.get st.uuid = some attrs) :
    (st.findBackward = false →
      ∀ t ts, ed.getTargets st.ftext st.isRegexp st.isCase st.isWord sl sp (-1) (-1) = t :: ts →
        ∃ st', searchFrom st sl sp cl = Except.ok (true, st')
          ∧ st'.registry.get st.uuid = some { attrs with matchSpan := t })
    ∧ (st.findBackward = false →
      ed.getTargets st.ftext st.isRegexp st.isCase st.isWord sl sp (-1) (-1) = [] →
      ∀ t ts, ed.getTargets st.ftext st.isRegexp st.isCase st.isWord 0 0 sl sp = t :: ts →
        ∃ st', searchFrom st sl sp cl = Except.ok (true, st')
          ∧ st'.registry.get st.uuid = some { attrs with matchSpan := t })
    ∧ (st.findBackward = true →
      ∀ t ts, ed.getTargets st.ftext st.isRegexp st.isCase st.isWord 0 0 sl sp = t :: ts →
        ∃ st', searchFrom st sl sp cl = Except.ok (true, st')
          ∧ st'.registry.get st.uuid
              = some { attrs with matchSpan := (t :: ts).getLast (List.cons_ne_nil t ts) })
    ∧ (st.findBackward = true →
      ed.getTargets st.ftext st.isRegexp st.isCase st.isWord 0 0 sl sp = [] →
      ∀ t ts, ed.getTargets st.ftext st.isRegexp st.isCase st.isWord sl sp (-1) (-1) = t :: ts →
        ∃ st', searchFrom st sl sp cl = Except.ok (true, st')
          ∧ st'.registry.get st.uuid
              = some { attrs with matchSpan := (t :: ts).getLast (List.cons_ne_nil t ts) }) := by
  refine ⟨?_, ?_, ?_, ?_⟩
  · intro hback t ts hts
    obtain ⟨t1, t2, t3⟩ := t
    cases cl <;>
    · unfold searchFrom
      rw [hed]
      simp only [EditorView.highlightMatch, EditorView.logOp, NavState.updateEditor,
        NavState.showSB, NavState.clearSB, hback, Bool.false_eq_true, not_false_eq_true,
        ite_true]
      rw [hts]
      dsimp only
      refine ⟨_, rfl, ?_⟩
      exact advanceMatchIndicator_get _ _ _ _ _ attrs
        (ed.logOp (EdOp.highlight st.ftext sl sp st.isRegexp st.isCase st.isWord false false))
        (by simp [hreg]) (by simp [hed, EditorView.logOp])
  · intro hback hempty t ts hts
    obtain ⟨t1, t2, t3⟩ := t
    unfold searchFrom
    rw [hed]
    simp only [EditorView.highlightMatch, EditorView.logOp, NavState.updateEditor,
      NavState.showSB, hback, Bool.false_eq_true, not_false_eq_true, ite_true]
    rw [hempty, hts]
    dsimp only
    refine ⟨_, rfl, ?_⟩
    exact advanceMatchIndicator_get _ _ _ _ _ attrs
      (ed.logOp (EdOp.highlight st.ftext sl sp st.isRegexp st.isCase st.isWord false false))
      (by simp [hreg]) (by simp [hed, EditorView.logOp])
  · intro hback t ts hts
    generalize hL : (t :: ts).getLast (List.cons_ne_nil t ts) = L
    obtain ⟨l1, l2, l3⟩ := L
    cases cl <;>
    · unfold searchFrom
      rw [hed]
      simp only [EditorView.highlightMatch, EditorView.logOp, NavState.updateEditor,
        NavState.showSB, NavState.clearSB, hback, not_true, Bool.not_true, ite_false,
        Bool.true_eq_false, not_true_eq_false]
      rw [hts]
      dsimp only
      rw [hL]
      refine ⟨_, rfl, ?_⟩
      exact advanceMatchIndicator_get _ _ _ _ _ attrs
        (ed.logOp (EdOp.highlight st.ftext sl sp st.isRegexp st.isCase st.isWord false false))
        (by simp [hreg]) (by simp [hed, EditorView.logOp])
  · intro hback hempty t ts hts
    generalize hL : (t :: ts).getLast (List.cons_ne_nil t ts) = L
    obtain ⟨l1, l2, l3⟩ := L
    unfold searchFrom
    rw [hed]
    simp only [EditorView.highlightMatch, EditorView.logOp, NavState.updateEditor,
      NavState.showSB, hback, not_true, Bool.not_true, ite_false, Bool.true_eq_false,
      not_true_eq_false]
    rw [hempty, hts]
    dsimp only
    rw [hL]
    refine ⟨_, rfl, ?_⟩
    exact advanceMatchIndicator_get _ _ _ _ _ attrs
      (ed.logOp (EdOp.highlight st.ftext sl sp st.isRegexp st.isCase st.isWord false false))
      (by simp [hreg]) (by simp [hed, EditorView.logOp])

/-- Attributes with an unset remembered match. -/
def attrs000 : SearchAttr := { line := 0, pos := 0, firstLine := 0 }

/-- Attributes whose remembered match starts at the origin with byte
length 2. -/
def attrs002 : SearchAttr := { line := 0, pos := 0, firstLine := 0, matchSpan := (0, 0, 2) }

/-- An editor that reports two targets for every scanned range. -/
def twoTargetEditor : EditorView := mkEditor [(0, 0, 1), (2, 0, 1)] (-1, -1, -1)

/-- Witness for C8: a two-target document; forward search picks the first
target. -/
theorem searchFrom_tiebreak_witness :
    ∃ st', searchFrom (oneDocState twoTargetEditor attrs000) 0 0 true
        = Except.ok (true, st')
      ∧ st'.registry.get "doc" = some { attrs000 with matchSpan := (0, 0, 1) } :=
  (searchFrom_tiebreak (oneDocState twoTargetEditor attrs000) 0 0 true
    twoTargetEditor attrs000 rfl rfl).1 rfl (0, 0, 1) [(2, 0, 1)] rfl

/-! ## C6: the scan-start rule of `__findNextPrev` -/

/-- C6: for a forward Next, when the cursor still sits on the remembered
match start, the scan start advances past the match by the character length
`stringAt` reports for the matched byte range (multi-byte characters
counted once), and the record is left untouched; when the cursor moved away
or no record exists, the record is re-anchored at the cursor with the
remembered match cleared to `(-1, -1, -1)` before the scan. -/
theorem findStartPoint_spec (st : NavState) (ed : EditorView) :
    (∀ attrs, st.registry.get st.uuid = some attrs →
      ed.cursor.1 = attrs.matchSpan.1 → ed.cursor.2 = attrs.matchSpan.2.1 →
      st.findBackward = false →
      findStartPoint st ed =
        ((ed.cursor.1,
          ed.cursor.2 + ed.stringAtLen (ed.posFromLineIndex ed.cursor.1 ed.cursor.2)
            attrs.matchSpan.2.2),
         st.registry))
    ∧ (∀ attrs, st.registry.get st.uuid = some attrs →
      ¬ (ed.cursor.1 = attrs.matchSpan.1 ∧ ed.cursor.2 = attrs.matchSpan.2.1) →
      findStartPoint st ed =
        ((ed.cursor.1, ed.cursor.2),
         st.registry.add st.uuid
           { line := ed.cursor.1, pos := ed.cursor.2, firstLine := ed.firstVisible,
             matchSpan := (-1, -1, -1) }))
    ∧ (st.registry.get st.uuid = none →
      findStartPoint st ed =
        ((ed.cursor.1, ed.cursor.2),
         st.registry.add st.uuid
           { line := ed.cursor.1, pos := ed.cursor.2, firstLine := ed.firstVisible,
             matchSpan := (-1, -1, -1) })) := by
  refine ⟨?_, ?_, ?_⟩
  · intro attrs hreg h1 h2 hback
    unfold findStartPoint
    rw [hreg]
    simp [h1, h2, hback]
  · intro attrs hreg hne
    unfold findStartPoint
    rw [hreg]
    simp [hne]
  · intro hreg
    unfold findStartPoint
    rw [hreg]

/-- Witness for C6: cursor on the remembered match start; the scan start
advances by the displayed-text character length of the match. -/
theorem findStartPoint_spec_witness :
    findStartPoint (oneDocState dummyEditor attrs002) dummyEditor
      = ((0, 2), [("doc", attrs002)]) :=
  (findStartPoint_spec (oneDocState dummyEditor attrs002) dummyEditor).1
    attrs002 rfl rfl rfl rfl

/-! ## C7: continuing incremental search with empty query or no match -/

/-- C7: in a continuing incremental search (record already registered),
when the query is empty or no match is found from the anchor, the cursor is
restored exactly to the recorded anchor, the scroll restore targets the
recorded first visible line (the editor's last requested operation is
`ensureLineOnScreen firstLine`), the remembered match becomes
`(-1, -1, -1)` while the anchor fields stay unchanged, and the emitted
`incSearchDone` signal is `false`. -/
theorem performSearch_continue_not_found (st : NavState) (ed : EditorView)
    (attrs : SearchAttr)
    (hted : st.isTextEditor = true)
    (hed : st.editors st.uuid = some ed)
    (hreg : st.registry.get st.uuid = some attrs)
    (hnm : st.ftext = "" ∨
      ed.highlightMatchF st.ftext st.isRegexp st.isCase st.isWord attrs.line attrs.pos
        = (-1, -1, -1)) :
    ∃ st' ed', performSearch st false = Except.ok st'
      ∧ st'.editors st.uuid = some ed'
      ∧ ed'.cursor = (attrs.line, attrs.pos)
      ∧ ed'.ops.head? = some (EdOp.ensureLine attrs.firstLine)
      ∧ st'.registry.get st.uuid = some { attrs with matchSpan := (-1, -1, -1) }
      ∧ st'.signals.head? = some false := by
  by_cases htext : st.ftext = ""
  · unfold performSearch
    rw [hted]
    simp [htext, hreg, hed, EditorView.logOp, EditorView.setCursorPosition,
      EditorView.ensureLineOnScreen, NavState.updateEditor, NavState.emitSignal,
      SearchSupport.get_add_self]
  · rcases hnm with hnm | hnm
    · exact absurd hnm htext
    · unfold performSearch
      rw [hted]
      simp [htext, hreg, hed, hnm, EditorView.highlightMatch, EditorView.logOp,
        EditorView.setCursorPosition, EditorView.ensureLineOnScreen,
        NavState.updateEditor, NavState.emitSignal, SearchSupport.get_add_self]

/-- Witness for C7: continuing search whose locator reports no match. -/
theorem performSearch_continue_not_found_witness :
    ∃ st' ed', performSearch (oneDocState dummyEditor attrs002) false = Except.ok st'
      ∧ st'.editors "doc" = some ed'
      ∧ ed'.cursor = (0, 0)
      ∧ ed'.ops.head? = some (EdOp.ensureLine 0)
      ∧ st'.registry.get "doc" = some { attrs002 with matchSpan := (-1, -1, -1) }
      ∧ st'.signals.head? = some false :=
  performSearch_continue_not_found (oneDocState dummyEditor attrs002) dummyEditor attrs002
    rfl rfl rfl (Or.inr rfl)

/-! ## C4: isolation on focus switch (`_resetHighlightOtherEditors`) -/

theorem clearIndStep_apply_ne (uuid : String) (env : String → Option EditorView)
    (entry : String × SearchAttr) (u : String) (h : u ≠ entry.1) :
    clearIndStep uuid env entry u = env u := by
  unfold clearIndStep
  by_cases h1 : entry.1 = uuid
  · simp [h1]
  · simp only [h1, if_false]
    cases henv : env entry.1 with
    | none => rfl
    | some ed => simp [h]

theorem clearIndStep_apply_self (uuid : String) (env : String → Option EditorView)
    (entry : String × SearchAttr) (h1 : entry.1 ≠ uuid) (ed : EditorView)
    (henv : env entry.1 = some ed) :
    clearIndStep uuid env entry entry.1 = some (ed.logOp EdOp.clearSearchInd) := by
  unfold clearIndStep
  simp [h1, henv]

theorem foldl_clearIndStep_not_mem (uuid key : String) (l : SearchSupport)
    (env : String → Option EditorView) (h : key ∉ l.map Prod.fst) :
    (l.foldl (clearIndStep uuid) env) key = env key := by
  induction l generalizing env with
  | nil => rfl
  | cons hd tl ih =>
      simp only [List.map_cons, List.mem_cons] at h
      push_neg at h
      obtain ⟨h1, h2⟩ := h
      rw [List.foldl_cons, ih _ h2]
      exact clearIndStep_apply_ne uuid env hd key h1

theorem foldl_clearIndStep_mem (uuid key : String) (a : SearchAttr) (ed : EditorView)
    (l : SearchSupport) (env : String → Option EditorView)
    (hnd : (l.map Prod.fst).Nodup) (hmem : (key, a) ∈ l) (hne : key ≠ uuid)
    (henv : env key = some ed) :
    (l.foldl (clearIndStep uuid) env) key = some (ed.logOp EdOp.clearSearchInd) := by
  induction l generalizing env with
  | nil => simp at hmem
  | cons hd tl ih =>
      rw [List.foldl_cons]
      simp only [List.map_cons, List.nodup_cons] at hnd
      rcases List.mem_cons.1 hmem with heq | hmem'
      · have hk : hd.1 = key := by rw [← heq]
        have hnotin : key ∉ tl.map Prod.fst := by rw [← hk]; exact hnd.1
        rw [foldl_clearIndStep_not_mem uuid key tl _ hnotin]
        have := clearIndStep_apply_self uuid env hd (by rw [hk]; exact hne) ed
          (by rw [hk]; exact henv)
        rw [hk] at this
        exact this
      · have hne2 : key ≠ hd.1 := by
          intro hc
          exact hnd.1 (hc ▸ (List.mem_map.2 ⟨(key, a), hmem', rfl⟩))
        have henv2 : clearIndStep uuid env hd key = some ed := by
          rw [clearIndStep_apply_ne uuid env hd key hne2, henv]
        exact ih (clearIndStep uuid env hd) hnd.2 hmem' henv2

/-- C4 counterexample: after searching in document A, isolating to the
newly active document B drops A's registry record entirely (the claim says
it must be neither altered nor cleared); B's own record is preserved
verbatim. -/
def attrsA : SearchAttr := { line := 1, pos := 2, firstLine := 0, matchSpan := (1, 2, 3) }

/-- Attributes of the isolated document in the two-document scenario. -/
def attrsB : SearchAttr := { line := 4, pos := 5, firstLine := 2, matchSpan := (4, 5, 6) }

/-- Two open documents A and B, both with search records, B active. -/
def twoDocState : NavState :=
  { registry := [("A", attrsA), ("B", attrsB)],
    editors := fun _ => some dummyEditor,
    uuid := "B", isTextEditor := true, findBackward := false, ftext := "q",
    isRegexp := false, isCase := false, isWord := false,
    sbMessages := [], sbCleared := 0, signals := [] }

/-- C4 counterexample: A had a record before the isolation step, and has
none after it, while B's record survives verbatim. -/
theorem resetHighlight_drops_record :
    twoDocState.registry.get "A" = some attrsA
      ∧ (resetHighlightOtherEditors twoDocState "B").registry.get "A" = none
      ∧ (resetHighlightOtherEditors twoDocState "B").registry.get "B" = some attrsB :=
  ⟨rfl, rfl, rfl⟩

/-- C4 (amended): isolating to a document keeps exactly that document's
record, verbatim, and drops every other record; every other document whose
widget is available is told to clear its search indicators (its visual
highlight), its record object itself being discarded unmutated. -/
theorem resetHighlightOtherEditors_spec (st : NavState) (uuid : String)
    (hnd : (st.registry.map Prod.fst).Nodup) :
    ((resetHighlightOtherEditors st uuid).registry =
        (match st.registry.get uuid with
         | some attrs => [(uuid, attrs)]
         | none => []))
      ∧ (∀ key a ed, key ≠ uuid → (key, a) ∈ st.registry → st.editors key = some ed →
          (resetHighlightOtherEditors st uuid).editors key
            = some (ed.logOp EdOp.clearSearchInd)) := by
  constructor
  · unfold resetHighlightOtherEditors
    cases hreg : st.registry.get uuid <;> simp [hreg, SearchSupport.add]
  · intro key a ed hne hmem henv
    unfold resetHighlightOtherEditors
    exact foldl_clearIndStep_mem uuid key a ed st.registry st.editors hnd hmem hne henv

/-- Witness for the amended C4 on the concrete two-document scenario. -/
theorem resetHighlightOtherEditors_spec_witness :
    (resetHighlightOtherEditors twoDocState "B").registry = [("B", attrsB)]
      ∧ (resetHighlightOtherEditors twoDocState "B").editors "A"
          = some (dummyEditor.logOp EdOp.clearSearchInd) := by
  have h := resetHighlightOtherEditors_spec twoDocState "B" (by decide)
  exact ⟨h.1, h.2 "A" attrsA dummyEditor (by decide) (by decide) rfl⟩

/-! ## The external text component, replace side

`ReplaceWidget.__onReplaceAll` / `__onReplace` drive the editor through
`findFirstTarget` / `findNextTarget` / `replaceTarget` and the
`beginUndoAction` / `endUndoAction` bracketing.  `RepEditor` models that
interface concretely: a single-line text buffer (line/index positions
collapse to a flat character offset), plain substring targets, an undo
stack of text snapshots pushed by `beginUndoAction`, and a newest-first
trace of the target/undo operations performed. -/

/-- One editor operation on the replace side. -/
inductive RepOp where
  | beginUndo
  | endUndo
  | findFirst (pos : Nat) (found : Bool)
  | findNext (found : Bool)
  | replace (pos : Nat)
deriving Repr, DecidableEq

/-- The concrete replace-side editor. -/
structure RepEditor where
  text : List Char
  searchText : List Char
  target : Option (Nat × Nat)
  searchPos : Nat
  undoGroups : List (List Char)
  cursor : Int × Int
  trace : List RepOp
deriving Repr, DecidableEq

/-- First offset `≥ i` at which `q` occurs in the suffix `t` (where `t` is
the document text from offset `i` on); `none` when there is no occurrence. -/
def subFind (q : List Char) (t : List Char) (i : Nat) : Option Nat :=
  if t.take q.length = q then some i
  else
    match t with
    | [] => none
    | _ :: rest => subFind q rest (i + 1)

/-- `editor.findFirstTarget(text, ..., line, index)`: finds the first
occurrence at or after the given position and makes it the current target. -/
def RepEditor.findFirstTarget (ed : RepEditor) (q : List Char) (fromPos : Nat) :
    Bool × RepEditor :=
  match subFind q (ed.text.drop fromPos) fromPos with
  | some j => (true, { ed with searchText := q, target := some (j, q.length),
                               searchPos := j, trace := RepOp.findFirst fromPos true :: ed.trace })
  | none => (false, { ed with searchText := q, target := none,
                              trace := RepOp.findFirst fromPos false :: ed.trace })

/-- `editor.findNextTarget()`: resumes the search for the remembered text
from the position just past the last replacement. -/
def RepEditor.findNextTarget (ed : RepEditor) : Bool × RepEditor :=
  match subFind ed.searchText (ed.text.drop ed.searchPos) ed.searchPos with
  | some j => (true, { ed with target := some (j, ed.searchText.length),
                               searchPos := j, trace := RepOp.findNext true :: ed.trace })
  | none => (false, { ed with target := none, trace := RepOp.findNext false :: ed.trace })

/-- `editor.replaceTarget(replacement)`: substitutes the current target. -/
def RepEditor.replaceTarget (ed : RepEditor) (repl : List Char) : Bool × RepEditor :=
  match ed.target with
  | none => (false, ed)
  | some (j, len) =>
      (true, { ed with text := ed.text.take j ++ repl ++ ed.text.drop (j + len),
                       searchPos := j + repl.length, target := none,
                       trace := RepOp.replace j :: ed.trace })

/-- `editor.beginUndoAction()`: opens an undo transaction (snapshot). -/
def RepEditor.beginUndoAction (ed : RepEditor) : RepEditor :=
  { ed with undoGroups := ed.text :: ed.undoGroups, trace := RepOp.beginUndo :: ed.trace }

/-- `editor.endUndoAction()`: closes the current undo transaction. -/
def RepEditor.endUndoAction (ed : RepEditor) : RepEditor :=
  { ed with trace := RepOp.endUndo :: ed.trace }

/-- A single user-level undo: reverts the most recent undo transaction. -/
def RepEditor.undo (ed : RepEditor) : RepEditor :=
  match ed.undoGroups with
  | [] => ed
  | t :: rest => { ed with text := t, undoGroups := rest }

/-- A fresh editor holding the given text. -/
def mkRepEditor (s : String) : RepEditor :=
  { text := s.data, searchText := [], target := none, searchPos := 0,
    undoGroups := [], cursor := (0, 0), trace := [] }

/-- Is the operation a substitution? -/
def isReplace : RepOp → Bool
  | RepOp.replace _ => true
  | _ => false

/-- Is the operation an undo-transaction marker? -/
def isUndoMark : RepOp → Bool
  | RepOp.beginUndo => true
  | RepOp.endUndo => true
  | _ => false

/-- Number of substitutions recorded in a trace. -/
def replCount (tr : List RepOp) : Nat := tr.countP (fun op => isReplace op)

/-- The `while found: replaceTarget; count += 1; found = findNextTarget()`
loop of `__onReplaceAll`, entered with a current target set.  The fuel
argument bounds the iterations; `__onReplaceAll` passes `text length + 1`,
which is sufficient for every non-empty query (each iteration strictly
shrinks the text remaining to the right of the search position). -/
def replaceAllLoop (repl : List Char) : Nat → RepEditor → RepEditor × Nat
  | 0, ed => (ed, 0)
  | fuel + 1, ed =>
      let r := ed.replaceTarget repl
      let f := r.2.findNextTarget
      if f.1 then
        let next := replaceAllLoop repl fuel f.2
        (next.1, next.2 + 1)
      else (f.2, 1)

/-- `ReplaceWidget.__onReplaceAll`: checks for at least one target starting
at the document origin; if none, only reports "No matches found. Nothing is
replaced."; otherwise substitutes every occurrence inside one
`beginUndoAction`/`endUndoAction` transaction, counting the substitutions,
and reports the pluralized count.  (The history update and button toggles
are modelled separately / elided.) -/
def onReplaceAll (ftext replaceText : String) (ed : RepEditor) : RepEditor × List String :=
  let fr := ed.findFirstTarget ftext.data 0
  if ¬ fr.1 then (fr.2, ["No matches found. Nothing is replaced."])
  else
    let ed1 := fr.2.beginUndoAction
    let res := replaceAllLoop replaceText.data (ed1.text.length + 1) ed1
    let ed2 := res.1.endUndoAction
    let count := res.2
    let suffix := if count > 1 then "s" else ""
    (ed2, [toString count ++ " occurrence" ++ suffix ++ " replaced."])

/-- Flat-offset rendering of a (line, index) position of the single-line
replace model; the embedded `__onReplace` passes the remembered match
start through it. -/
def repPosOf (line pos : Int) : Nat := pos.toNat

/-- `ReplaceWidget.__onReplace`: single replace of the current occurrence.
Looks for the first target at or after the remembered match start; when
found, substitutes it, reports "1 occurrence replaced.", moves the cursor
just past the inserted text and invalidates the remembered match; when the
substitution is refused, reports "No occurrences replaced." and still
invalidates the remembered match.  When no target is found, nothing at all
happens: no message, no mutation.  Returns (editor, attributes, messages). -/
def onReplace (ftext replaceText : String) (attrs : SearchAttr) (ed : RepEditor) :
    RepEditor × SearchAttr × List String :=
  let fromPos := repPosOf attrs.matchSpan.1 attrs.matchSpan.2.1
  let fr := ed.findFirstTarget ftext.data fromPos
  if fr.1 then
    let rt := fr.2.replaceTarget replaceText.data
    if rt.1 then
      let attrs1 : SearchAttr := { attrs with matchSpan :=
        (attrs.matchSpan.1, attrs.matchSpan.2.1 + (replaceText.length : Int),
         attrs.matchSpan.2.2) }
      let ed1 := { rt.2 with cursor := (attrs1.matchSpan.1, attrs1.matchSpan.2.1) }
      (ed1, { attrs1 with matchSpan := (-1, -1, -1) }, ["1 occurrence replaced."])
    else
      (rt.2, { attrs with matchSpan := (-1, -1, -1) }, ["No occurrences replaced."])
  else (fr.2, attrs, [])

/-- `replaceTarget` with a current target: the substitution performed. -/
theorem replaceTarget_some (ed : RepEditor) (repl : List Char) (j len : Nat)
    (ht : ed.target = some (j, len)) :
    ed.replaceTarget repl =
      (true, { ed with text := ed.text.take j ++ repl ++ ed.text.drop (j + len),
                       searchPos := j + repl.length, target := none,
                       trace := RepOp.replace j :: ed.trace }) := by
  unfold RepEditor.replaceTarget
  rw [ht]

/-- `findNextTarget` either finds a new target or reports failure; in both
cases it only logs one search operation. -/
theorem findNextTarget_cases (ed : RepEditor) :
    ((ed.findNextTarget).1 = true
        ∧ ∃ j2, ed.findNextTarget
            = (true, { ed with target := some (j2, ed.searchText.length), searchPos := j2,
                               trace := RepOp.findNext true :: ed.trace }))
    ∨ ((ed.findNextTarget).1 = false
        ∧ ed.findNextTarget
            = (false, { ed with target := none,
                                trace := RepOp.findNext false :: ed.trace })) := by
  unfold RepEditor.findNextTarget
  cases hf : subFind ed.searchText (ed.text.drop ed.searchPos) ed.searchPos with
  | some j2 => exact Or.inl ⟨rfl, j2, rfl⟩
  | none => exact Or.inr ⟨rfl, rfl⟩

/-- The replace-all loop only appends substitution and search operations to
the trace (never an undo marker), reports exactly the number of
substitutions it performed, and never touches the undo stack. -/
theorem replaceAllLoop_trace (repl : List Char) (fuel : Nat) (ed : RepEditor)
    (j len : Nat) (ht : ed.target = some (j, len)) :
    ∃ mid, ((replaceAllLoop repl fuel ed).1.trace = mid ++ ed.trace)
      ∧ (replCount mid = (replaceAllLoop repl fuel ed).2)
      ∧ (∀ op ∈ mid, isUndoMark op = false)
      ∧ (replaceAllLoop repl fuel ed).1.undoGroups = ed.undoGroups := by
  induction fuel generalizing ed j len with
  | zero =>
      exact ⟨[], by simp [replaceAllLoop], by simp [replaceAllLoop, replCount],
        by simp, by simp [replaceAllLoop]⟩
  | succ fuel ih =>
      simp only [replaceAllLoop]
      rw [replaceTarget_some ed repl j len ht]
      dsimp only
      rcases findNextTarget_cases { ed with
          text := ed.text.take j ++ repl ++ ed.text.drop (j + len),
          searchPos := j + repl.length, target := none,
          trace := RepOp.replace j :: ed.trace } with ⟨h1, j2, h2⟩ | ⟨h1, h2⟩
      · rw [h2]
        dsimp only
        rw [if_pos rfl]
        obtain ⟨mid', hm1, hm2, hm3, hm4⟩ :=
          ih { text := ed.text.take j ++ repl ++ ed.text.drop (j + len),
               searchText := ed.searchText,
               target := some (j2, ed.searchText.length), searchPos := j2,
               undoGroups := ed.undoGroups, cursor := ed.cursor,
               trace := RepOp.findNext true :: RepOp.replace j :: ed.trace }
             j2 ed.searchText.length rfl
        refine ⟨mid' ++ [RepOp.findNext true, RepOp.replace j], ?_, ?_, ?_, ?_⟩
        · rw [hm1]
          simp
        · dsimp only
          rw [← hm2]
          simp [replCount, isReplace]
        · intro op hop
          rcases List.mem_append.1 hop with hop | hop
          · exact hm3 op hop
          · simp only [List.mem_cons, List.not_mem_nil, or_false] at hop
            rcases hop with h | h <;> (rw [h]; rfl)
        · rw [hm4]
      · rw [h2]
        dsimp only
        rw [if_neg Bool.false_ne_true]
        refine ⟨[RepOp.findNext false, RepOp.replace j], ?_, ?_, ?_, ?_⟩
        · simp
        · simp [replCount, isReplace]
        · intro op hop
          simp only [List.mem_cons, List.not_mem_nil, or_false] at hop
          rcases hop with h | h <;> (rw [h]; rfl)
        · rfl

/-- The loop reports at least one substitution whenever it has fuel. -/
theorem replaceAllLoop_pos (repl : List Char) (fuel : Nat) (ed : RepEditor) :
    1 ≤ (replaceAllLoop repl (fuel + 1) ed).2 := by
  simp only [replaceAllLoop]
  split <;> simp

/-- Pluralization of the replace-all report at count one. -/
theorem pluralize_one (n : Nat) (hn : n = 1) :
    [toString n ++ " occurrence" ++ (if n > 1 then "s" else "") ++ " replaced."]
      = ["1 occurrence replaced."] := by
  subst hn
  rfl

/-- Popping an undo transaction restores the snapshotted text. -/
theorem undo_text (ed : RepEditor) (t : List Char) (rest : List (List Char))
    (h : ed.undoGroups = t :: rest) : ed.undo.text = t := by
  unfold RepEditor.undo
  rw [h]

/-- The found branch of `__onReplaceAll`: every substitution sits strictly
inside the one undo transaction, the reported count equals the number of
substitutions, at least one substitution happens, and one undo restores the
pre-call text. -/
theorem replaceAll_body (replaceText : String) (edF : RepEditor) (j qlen : Nat)
    (ht : edF.target = some (j, qlen)) :
    ∃ mid,
      (((replaceAllLoop replaceText.data (edF.beginUndoAction.text.length + 1)
            edF.beginUndoAction).1.endUndoAction).trace
          = RepOp.endUndo :: (mid ++ RepOp.beginUndo :: edF.trace))
        ∧ (∀ op ∈ mid, isUndoMark op = false)
        ∧ replCount mid
            = (replaceAllLoop replaceText.data (edF.beginUndoAction.text.length + 1)
                edF.beginUndoAction).2
        ∧ 1 ≤ (replaceAllLoop replaceText.data (edF.beginUndoAction.text.length + 1)
                edF.beginUndoAction).2
        ∧ ((replaceAllLoop replaceText.data (edF.beginUndoAction.text.length + 1)
              edF.beginUndoAction).1.endUndoAction).undoGroups
            = edF.text :: edF.undoGroups
        ∧ (((replaceAllLoop replaceText.data (edF.beginUndoAction.text.length + 1)
              edF.beginUndoAction).1.endUndoAction).undo).text = edF.text := by
  obtain ⟨mid, hm1, hm2, hm3, hm4⟩ :=
    replaceAllLoop_trace replaceText.data (edF.beginUndoAction.text.length + 1)
      edF.beginUndoAction j qlen (by simp [RepEditor.beginUndoAction, ht])
  have hground : ((replaceAllLoop replaceText.data (edF.beginUndoAction.text.length + 1)
        edF.beginUndoAction).1.endUndoAction).undoGroups = edF.text :: edF.undoGroups := by
    simp only [RepEditor.endUndoAction]
    rw [hm4]
    simp [RepEditor.beginUndoAction]
  refine ⟨mid, ?_, hm3, hm2, ?_, hground, ?_⟩
  · simp only [RepEditor.endUndoAction]
    rw [hm1]
    simp [RepEditor.beginUndoAction]
  · exact replaceAllLoop_pos replaceText.data edF.beginUndoAction.text.length
      edF.beginUndoAction
  · exact undo_text _ _ _ hground

/-- C1: `__onReplaceAll` with no match from the document start only reports
"No matches found. Nothing is replaced." — no substitution, no undo
transaction; otherwise it substitutes every occurrence inside a single
`beginUndoAction`/`endUndoAction` transaction via substitute-then-find-next,
the reported count equals the number of substitutions, the report is
pluralized ("1 occurrence replaced." exactly when the count is 1), and a
single undo of the whole operation restores the original text. -/
theorem onReplaceAll_spec (ftext replaceText : String) (ed : RepEditor) :
    (subFind ftext.data (ed.text.drop 0) 0 = none →
      (onReplaceAll ftext replaceText ed).1.text = ed.text
        ∧ (onReplaceAll ftext replaceText ed).1.undoGroups = ed.undoGroups
        ∧ (onReplaceAll ftext replaceText ed).2 = ["No matches found. Nothing is replaced."]
        ∧ (onReplaceAll ftext replaceText ed).1.trace = RepOp.findFirst 0 false :: ed.trace)
    ∧ (∀ j, subFind ftext.data (ed.text.drop 0) 0 = some j →
      ∃ mid count,
        ((onReplaceAll ftext replaceText ed).1.trace
            = RepOp.endUndo :: (mid ++ RepOp.beginUndo :: RepOp.findFirst 0 true :: ed.trace))
          ∧ (∀ op ∈ mid, isUndoMark op = false)
          ∧ replCount mid = count
          ∧ 1 ≤ count
          ∧ (onReplaceAll ftext replaceText ed).2
              = [toString count ++ " occurrence" ++ (if count > 1 then "s" else "") ++ " replaced."]
          ∧ (count = 1 → (onReplaceAll ftext replaceText ed).2 = ["1 occurrence replaced."])
          ∧ (onReplaceAll ftext replaceText ed).1.undoGroups = ed.text :: ed.undoGroups
          ∧ ((onReplaceAll ftext replaceText ed).1.undo).text = ed.text) := by
  constructor
  · intro h
    unfold onReplaceAll RepEditor.findFirstTarget
    rw [h]
    dsimp only
    rw [if_pos Bool.false_ne_true]
    exact ⟨rfl, rfl, rfl, rfl⟩
  · intro j h
    unfold onReplaceAll RepEditor.findFirstTarget
    rw [h]
    dsimp only
    rw [if_neg (fun hc => hc rfl)]
    obtain ⟨mid, h1, h2, h3, h4, h5, h6⟩ := replaceAll_body replaceText
      { ed with searchText := ftext.data, target := some (j, ftext.data.length),
                searchPos := j, trace := RepOp.findFirst 0 true :: ed.trace }
      j ftext.data.length rfl
    refine ⟨mid, _, h1, h2, h3, h4, rfl, ?_, h5, h6⟩
    exact fun hc => pluralize_one _ hc

/-- Witness for C1 on the spec's own example: replacing "a" with "b" in
"aXaXa" yields "bXbXb", reports "3 occurrences replaced.", and one undo
restores "aXaXa". -/
theorem onReplaceAll_spec_witness :
    (∃ mid count,
        ((onReplaceAll "a" "b" (mkRepEditor "aXaXa")).1.trace
            = RepOp.endUndo :: (mid ++ RepOp.beginUndo :: RepOp.findFirst 0 true
                :: (mkRepEditor "aXaXa").trace))
          ∧ (∀ op ∈ mid, isUndoMark op = false)
          ∧ replCount mid = count
          ∧ 1 ≤ count
          ∧ (onReplaceAll "a" "b" (mkRepEditor "aXaXa")).2
              = [toString count ++ " occurrence" ++ (if count > 1 then "s" else "")
                  ++ " replaced."]
          ∧ (count = 1 →
              (onReplaceAll "a" "b" (mkRepEditor "aXaXa")).2 = ["1 occurrence replaced."])
          ∧ (onReplaceAll "a" "b" (mkRepEditor "aXaXa")).1.undoGroups
              = (mkRepEditor "aXaXa").text :: (mkRepEditor "aXaXa").undoGroups
          ∧ ((onReplaceAll "a" "b" (mkRepEditor "aXaXa")).1.undo).text
              = (mkRepEditor "aXaXa").text)
      ∧ (onReplaceAll "a" "b" (mkRepEditor "aXaXa")).1.text = "bXbXb".data
      ∧ (onReplaceAll "a" "b" (mkRepEditor "aXaXa")).2 = ["3 occurrences replaced."]
      ∧ ((onReplaceAll "a" "b" (mkRepEditor "aXaXa")).1.undo).text = "aXaXa".data :=
  ⟨(onReplaceAll_spec "a" "b" (mkRepEditor "aXaXa")).2 0 (by decide),
   by decide, by decide, by decide⟩

/-! ## C3: single replace with no match -/

/-- C3 (amended): when `__onReplace` finds no target at or after the
remembered match start, it performs no substitution and leaves the editor
text, the undo stack and the remembered match unchanged — and it emits no
status message at all (the claimed "no matches, nothing replaced" report
does not exist in the code). -/
theorem onReplace_no_match (ftext replaceText : String) (attrs : SearchAttr)
    (ed : RepEditor)
    (h : subFind ftext.data
          (ed.text.drop (repPosOf attrs.matchSpan.1 attrs.matchSpan.2.1))
          (repPosOf attrs.matchSpan.1 attrs.matchSpan.2.1) = none) :
    (onReplace ftext replaceText attrs ed).1.text = ed.text
      ∧ (onReplace ftext replaceText attrs ed).2.1 = attrs
      ∧ (onReplace ftext replaceText attrs ed).2.2 = []
      ∧ replCount (onReplace ftext replaceText attrs ed).1.trace = replCount ed.trace
      ∧ (onReplace ftext replaceText attrs ed).1.undoGroups = ed.undoGroups := by
  unfold onReplace RepEditor.findFirstTarget
  dsimp only
  rw [h]
  dsimp only
  rw [if_neg Bool.false_ne_true]
  refine ⟨rfl, rfl, rfl, ?_, rfl⟩
  simp [replCount, List.countP_cons, isReplace]

/-- A remembered match at the document origin, for the C3 scenario. -/
def attrsC3 : SearchAttr := { line := 0, pos := 0, firstLine := 0, matchSpan := (0, 0, 1) }

/-- C3 counterexample: with no occurrence of the query in the document, the
single-replace handler emits no status message at all (the claim says a
"no matches, nothing replaced" message is reported), while indeed nothing
is substituted and the remembered match is untouched. -/
theorem onReplace_silent_no_match :
    (onReplace "q" "r" attrsC3 (mkRepEditor "xyz")).2.2 = []
      ∧ (onReplace "q" "r" attrsC3 (mkRepEditor "xyz")).1.text = "xyz".data
      ∧ (onReplace "q" "r" attrsC3 (mkRepEditor "xyz")).2.1 = attrsC3 := by
  decide

/-- A remembered match away from the origin, for the C3 witness. -/
def attrsZ : SearchAttr := { line := 0, pos := 2, firstLine := 0, matchSpan := (0, 2, 1) }

/-- Witness for the amended C3 at a concrete no-match input. -/
theorem onReplace_no_match_witness :
    (onReplace "z" "w" attrsZ (mkRepEditor "hello")).1.text = "hello".data
      ∧ (onReplace "z" "w" attrsZ (mkRepEditor "hello")).2.1 = attrsZ
      ∧ (onReplace "z" "w" attrsZ (mkRepEditor "hello")).2.2 = []
      ∧ replCount (onReplace "z" "w" attrsZ (mkRepEditor "hello")).1.trace
          = replCount (mkRepEditor "hello").trace
      ∧ (onReplace "z" "w" attrsZ (mkRepEditor "hello")).1.undoGroups
          = (mkRepEditor "hello").undoGroups :=
  onReplace_no_match "z" "w" attrsZ (mkRepEditor "hello") (by decide)

end FindReplace
